import Mathlib

/-!
A formal model of the thread-management core in `src/thread.cc`: the
owner-tracking mutex, thread creation and attachment, the current-thread
lookup, the thread registry, state formatting, and the bounded
exception-message formatter.

Machine state that the C++ code obtains from the operating system
(pthreads call results, mapped memory addresses, TLS slot contents) is
passed to the Lean functions as explicit parameters.  A process-aborting
CHECK failure is modelled as the `fatal` outcome; a call that waits for
another thread is the `blocked` outcome.  Threads are identified by
natural numbers (a `Thread*` pointer identity in the C++ code).
-/

/-- Outcome of one call executed against explicit state `σ`: either the
call returns a value of type `α` together with the updated state, or it
blocks waiting on another thread, or a CHECK/LOG(FATAL) aborts the
process. -/
inductive Outcome (σ : Type) (α : Type) where
  | ok : α → σ → Outcome σ α
  | blocked : Outcome σ α
  | fatal : Outcome σ α
deriving DecidableEq

/-- POSIX errno value EBUSY, returned by `pthread_mutex_trylock` on a held
lock. -/
def EBUSY : Int := 16

/-- POSIX errno value EPERM, returned by `pthread_mutex_unlock` when the
caller does not hold the lock. -/
def EPERM : Int := 1

/-- State of one `Mutex` (from `thread.cc` and the spec §3): the
underlying pthread lock `lock_impl_`, modelled by the thread currently
holding it, and the diagnostic `owner_` field written by
`SetOwner`/read by `GetOwner`. -/
structure Mutex where
  holder : Option Nat
  owner : Option Nat
deriving DecidableEq

/-- Model of POSIX `pthread_mutex_lock` on a default (non-recursive)
mutex: acquires a free lock and returns 0; while any thread (the caller
included) holds the lock, the call blocks until release — it never
returns EBUSY. -/
def pthread_mutex_lock (caller : Nat) (m : Mutex) : Outcome Mutex Int :=
  match m.holder with
  | none => .ok 0 { m with holder := some caller }
  | some _ => .blocked

/-- Model of POSIX `pthread_mutex_trylock`: acquires a free lock and
returns 0; on a held lock it returns EBUSY immediately without
blocking. -/
def pthread_mutex_trylock (caller : Nat) (m : Mutex) : Outcome Mutex Int :=
  match m.holder with
  | none => .ok 0 { m with holder := some caller }
  | some _ => .ok EBUSY m

/-- Model of POSIX `pthread_mutex_unlock`: releases the lock when the
caller holds it and returns 0; otherwise returns EPERM (the
error-checking behaviour; for a default mutex this case is undefined and
is modelled conservatively as an error return). -/
def pthread_mutex_unlock (caller : Nat) (m : Mutex) : Outcome Mutex Int :=
  match m.holder with
  | some t => if t = caller then .ok 0 { m with holder := none } else .ok EPERM m
  | none => .ok EPERM m

/-- `Mutex::Lock` (thread.cc:28): `pthread_mutex_lock`, `CHECK_EQ(result, 0)`,
then `SetOwner(Thread::Current())`. -/
def Mutex.Lock (caller : Nat) (m : Mutex) : Outcome Mutex Unit :=
  match pthread_mutex_lock caller m with
  | .ok result m' =>
      if result = 0 then .ok () { m' with owner := some caller } else .fatal
  | .blocked => .blocked
  | .fatal => .fatal

/-- `Mutex::TryLock` (thread.cc:34): NOTE the source calls
`pthread_mutex_lock`, not `pthread_mutex_trylock`; it then returns false
on EBUSY, and otherwise `CHECK_EQ(result, 0)`, `SetOwner`, returns
true. -/
def Mutex.TryLock (caller : Nat) (m : Mutex) : Outcome Mutex Bool :=
  match pthread_mutex_lock caller m with
  | .ok result m' =>
      if result = EBUSY then .ok false m'
      else if result = 0 then .ok true { m' with owner := some caller }
      else .fatal
  | .blocked => .blocked
  | .fatal => .fatal

/-- `Mutex::Unlock` (thread.cc:45): `CHECK(GetOwner() == Thread::Current())`,
`pthread_mutex_unlock`, `CHECK_EQ(result, 0)`, then
`SetOwner(Thread::Current())` — the owner is re-set to the unlocking
thread, not cleared. -/
def Mutex.Unlock (caller : Nat) (m : Mutex) : Outcome Mutex Unit :=
  if m.owner = some caller then
    match pthread_mutex_unlock caller m with
    | .ok result m' =>
        if result = 0 then .ok () { m' with owner := some caller } else .fatal
    | .blocked => .blocked
    | .fatal => .fatal
  else .fatal

/-- C1: the claim says `try_lock` never blocks and returns false when the
lock is held by another party.  The code instead calls the blocking
`pthread_mutex_lock` (which never returns EBUSY), so with thread 1
holding the lock a `TryLock` by thread 2 blocks rather than returning
false; the non-blocking `pthread_mutex_trylock`, whose EBUSY result the
dead branch of the source anticipates, would have returned EBUSY there.
On a free lock the code does acquire, record ownership and return
true. -/
theorem tryLock_blocks_when_held :
    Mutex.TryLock 2 ⟨some 1, some 1⟩ = Outcome.blocked ∧
    Mutex.TryLock 2 ⟨some 1, some 1⟩ ≠ Outcome.ok false ⟨some 1, some 1⟩ ∧
    pthread_mutex_trylock 2 ⟨some 1, some 1⟩ = Outcome.ok EBUSY ⟨some 1, some 1⟩ ∧
    Mutex.TryLock 2 ⟨none, none⟩ = Outcome.ok true ⟨some 2, some 2⟩ := by
  decide

/-- C2: `Unlock` by a thread that is not the recorded owner always hits
the fatal owner CHECK; when the caller is the recorded owner (and holds
the underlying lock), the lock is released. -/
theorem unlock_requires_owner (caller : Nat) (m : Mutex) :
    (m.owner ≠ some caller → Mutex.Unlock caller m = Outcome.fatal) ∧
    (m.owner = some caller → m.holder = some caller →
      Mutex.Unlock caller m = Outcome.ok () ⟨none, some caller⟩) := by
  constructor
  · intro h
    simp [Mutex.Unlock, h]
  · intro h1 h2
    simp [Mutex.Unlock, h1, pthread_mutex_unlock, h2]

/-- C2 witness: thread 1 unlocking a mutex owned by thread 2 is fatal;
thread 1 unlocking a mutex it owns and holds releases it. -/
theorem unlock_requires_owner_witness :
    Mutex.Unlock 1 ⟨some 2, some 2⟩ = Outcome.fatal ∧
    Mutex.Unlock 1 ⟨some 1, some 1⟩ = Outcome.ok () ⟨none, some 1⟩ :=
  ⟨(unlock_requires_owner 1 ⟨some 2, some 2⟩).1 (by decide),
   (unlock_requires_owner 1 ⟨some 1, some 1⟩).2 rfl rfl⟩

/-- C3: after every successful `Lock`, successful `TryLock` returning
true, and successful `Unlock`, the `owner_` field records the thread
that performed the operation; on unlock it is re-set to the unlocking
thread, never cleared to none.  (Non-`ok` outcomes carry no successor
state: the model writes `owner_` nowhere else.) -/
theorem owner_tracks_last_locker (caller : Nat) (m m' : Mutex) :
    (Mutex.Lock caller m = Outcome.ok () m' → m'.owner = some caller) ∧
    (Mutex.TryLock caller m = Outcome.ok true m' → m'.owner = some caller) ∧
    (Mutex.Unlock caller m = Outcome.ok () m' →
      m'.owner = some caller ∧ m'.owner ≠ none) := by
  refine ⟨?_, ?_, ?_⟩
  · intro h
    unfold Mutex.Lock pthread_mutex_lock at h
    cases hm : m.holder <;> simp [hm] at h
    exact h.symm ▸ rfl
  · intro h
    unfold Mutex.TryLock pthread_mutex_lock at h
    cases hm : m.holder <;> simp [hm, EBUSY] at h
    exact h.symm ▸ rfl
  · intro h
    unfold Mutex.Unlock pthread_mutex_unlock at h
    by_cases ho : m.owner = some caller
    · simp only [ho, if_pos rfl] at h
      cases hm : m.holder with
      | none => simp [hm, EPERM] at h
      | some t =>
          by_cases ht : t = caller
          · simp [hm, ht] at h
            exact h.symm ▸ ⟨rfl, by simp⟩
          · simp [hm, ht, EPERM] at h
    · simp [ho] at h

/-- C3 witness: locking a free mutex records thread 1 as owner; unlocking
re-sets the owner to the unlocking thread. -/
theorem owner_tracks_last_locker_witness :
    (Mutex.owner ⟨some 1, some 1⟩ = some 1) ∧
    (Mutex.owner ⟨none, some 1⟩ = some 1 ∧ Mutex.owner ⟨none, some 1⟩ ≠ none) :=
  ⟨(owner_tracks_last_locker 1 ⟨none, none⟩ ⟨some 1, some 1⟩).1 (by decide),
   (owner_tracks_last_locker 1 ⟨some 1, some 1⟩ ⟨none, some 1⟩).2.2 (by decide)⟩

/-- One operation against the thread registry: `ThreadList::Register` or
`ThreadList::Unregister` of the given thread. -/
inductive TLOp where
  | reg : Nat → TLOp
  | unreg : Nat → TLOp
deriving DecidableEq

/-- `ThreadList::Register` (thread.cc:224): under the guard lock,
`CHECK(find(...) == list_.end())` — fatal (`none`) if the thread is
already present — then `list_.push_front(thread)`. -/
def ThreadList.Register (t : Nat) (l : List Nat) : Option (List Nat) :=
  if t ∈ l then none else some (t :: l)

/-- `ThreadList::Unregister` (thread.cc:230): under the guard lock,
`CHECK(find(...) != list_.end())` — fatal (`none`) if the thread is
absent — then `list_.remove(thread)`, which erases every element equal
to the thread. -/
def ThreadList.Unregister (t : Nat) (l : List Nat) : Option (List Nat) :=
  if t ∈ l then some (l.filter (fun x => x != t)) else none

/-- Run one registry operation. -/
def TLOp.step (op : TLOp) (l : List Nat) : Option (List Nat) :=
  match op with
  | .reg t => ThreadList.Register t l
  | .unreg t => ThreadList.Unregister t l

/-- Run a sequence of registry operations; `none` as soon as a CHECK
fires. -/
def runOps : List TLOp → List Nat → Option (List Nat)
  | [], l => some l
  | op :: ops, l =>
      match op.step l with
      | none => none
      | some l' => runOps ops l'

/-- Which threads an operation sequence leaves registered, starting from
the given registration predicate: a register marks the thread
registered, an unregister marks it unregistered, independent of the
registry's list representation. -/
def regdFrom : List TLOp → (Nat → Bool) → Nat → Bool
  | [], cur => cur
  | .reg u :: ops, cur => regdFrom ops (fun t => if t = u then true else cur t)
  | .unreg u :: ops, cur => regdFrom ops (fun t => if t = u then false else cur t)

/-- Which threads an operation sequence, run from an empty registry,
leaves registered. -/
def regd (ops : List TLOp) : Nat → Bool :=
  regdFrom ops (fun _ => false)

/-- Invariant carried through a run of registry operations: if the
starting list has no duplicates and agrees with the registration
predicate, so does every non-fatal final list. -/
lemma runOps_invariant (ops : List TLOp) :
    ∀ (l₀ : List Nat) (cur : Nat → Bool), l₀.Nodup →
      (∀ t, t ∈ l₀ ↔ cur t = true) → ∀ l, runOps ops l₀ = some l →
      l.Nodup ∧ ∀ t, t ∈ l ↔ regdFrom ops cur t = true := by
  induction ops with
  | nil =>
      intro l₀ cur hnd hc l h
      simp [runOps] at h
      subst h
      exact ⟨hnd, fun t => by rw [hc t]; rfl⟩
  | cons op ops ih =>
      intro l₀ cur hnd hc l h
      cases op with
      | reg u =>
          by_cases hu : u ∈ l₀
          · simp [runOps, TLOp.step, ThreadList.Register, hu] at h
          · simp only [runOps, TLOp.step, ThreadList.Register, if_neg hu] at h
            refine ih (u :: l₀) _ (List.nodup_cons.mpr ⟨hu, hnd⟩) ?_ l h
            intro t
            by_cases ht : t = u
            · subst ht
              simp
            · simp [ht, hc t]
      | unreg u =>
          by_cases hu : u ∈ l₀
          · simp only [runOps, TLOp.step, ThreadList.Unregister, if_pos hu] at h
            refine ih (l₀.filter (fun x => x != u)) _ (List.Nodup.filter _ hnd) ?_ l h
            intro t
            by_cases ht : t = u
            · subst ht
              simp [List.mem_filter]
            · simp [List.mem_filter, ht, hc t]
          · simp [runOps, TLOp.step, ThreadList.Unregister, hu] at h

/-- C4: `Register` is fatal when the thread is already present,
`Unregister` is fatal when it is absent, and after any non-fatal
sequence of operations from an empty registry the list holds exactly the
currently-registered threads, each exactly once. -/
theorem threadList_uniqueness :
    (∀ t l, t ∈ l → ThreadList.Register t l = none) ∧
    (∀ t l, t ∉ l → ThreadList.Unregister t l = none) ∧
    (∀ ops l, runOps ops [] = some l →
      l.Nodup ∧ ∀ t, t ∈ l ↔ regd ops t = true) := by
  refine ⟨?_, ?_, ?_⟩
  · intro t l ht
    simp [ThreadList.Register, ht]
  · intro t l ht
    simp [ThreadList.Unregister, ht]
  · intro ops l h
    exact runOps_invariant ops [] (fun _ => false) List.nodup_nil (by simp) l h

/-- C4 witness: registering an already-present thread is fatal,
unregistering an absent thread is fatal, and the run
register 1, register 2, unregister 1 ends with exactly thread 2
registered once. -/
theorem threadList_uniqueness_witness :
    ThreadList.Register 1 [1] = none ∧
    ThreadList.Unregister 3 [1] = none ∧
    (runOps [TLOp.reg 1, TLOp.reg 2, TLOp.unreg 1] [] = some [2] ∧
      ([2] : List Nat).Nodup ∧
      ((2 ∈ ([2] : List Nat)) ↔ regd [TLOp.reg 1, TLOp.reg 2, TLOp.unreg 1] 2 = true) ∧
      ((1 ∈ ([2] : List Nat)) ↔ regd [TLOp.reg 1, TLOp.reg 2, TLOp.unreg 1] 1 = true)) := by
  have h := threadList_uniqueness.2.2 [TLOp.reg 1, TLOp.reg 2, TLOp.unreg 1] [2] (by decide)
  exact ⟨threadList_uniqueness.1 1 [1] (by decide),
         threadList_uniqueness.2.1 3 [1] (by decide),
         by decide, h.1, h.2 2, h.2 1⟩

/-- `ThreadList::~ThreadList` (thread.cc:212): the two shutdown CHECKs,
`CHECK_LE(list_.size(), 1U)` and
`CHECK(list_.size() == 0 || list_.front() == Thread::Current())`,
evaluated for the registry contents `l` and the destroying thread
`current`; `true` means destruction passes both checks. -/
def ThreadList.destructorChecks (l : List Nat) (current : Nat) : Bool :=
  decide (l.length ≤ 1) && (decide (l.length = 0) || decide (l.head? = some current))

/-- C5: destruction passes the shutdown invariant exactly when the
registry is empty or holds exactly the destroying thread; more than one
entry, or a single entry other than the destroying thread, is fatal. -/
theorem threadList_shutdown_invariant (l : List Nat) (current : Nat) :
    ThreadList.destructorChecks l current = true ↔ (l = [] ∨ l = [current]) := by
  cases l with
  | nil => simp [ThreadList.destructorChecks]
  | cons x xs =>
      cases xs with
      | nil => simp [ThreadList.destructorChecks, eq_comm]
      | cons y ys => simp [ThreadList.destructorChecks]

/-- Modelled from the spec: the `Thread::State` enumerator values from
`thread.h` (not under src/), contiguous in the spec §3 order
New, Runnable, Blocked, Waiting, TimedWaiting, Native, Terminated. -/
def kNew : Int := 0

/-- `Thread::State` value for Runnable (see `kNew`). -/
def kRunnable : Int := 1

/-- `Thread::State` value for Terminated (see `kNew`). -/
def kTerminated : Int := 6

/-- Page size used by `RoundUp(addr, kPageSize)` in `Thread::Attach`. -/
def kPageSize : Nat := 4096

/-- `RoundUp` from utils: rounds `x` up to the next multiple of `k`. -/
def RoundUp (x k : Nat) : Nat := ((x + k - 1) / k) * k

/-- The address `reinterpret_cast<byte*>(-1)` stored into `stack_limit_`
by `Thread::Attach`, on a 64-bit machine. -/
def maxAddr : Nat := 2 ^ 64 - 1

/-- The fields of a `Thread` object (thread.h is not under src/; the
fields are those `thread.cc` writes): the pointer identity `id`, the
`state_` field as its integer enumerator value, the recorded stack
bounds, and the native handle from `pthread_self()`. -/
structure Thread where
  id : Nat
  state : Int
  stack_base : Nat
  stack_limit : Nat
  handle : Nat
deriving DecidableEq

/-- The Current-Thread Lookup: the per-native-thread TLS slots written by
`pthread_setspecific(Thread::pthread_key_self_, thread)`, newest write
first. -/
def tlsLookup (tls : List (Nat × Nat)) (n : Nat) : Option Nat :=
  (tls.find? (fun p => p.1 == n)).map (fun p => p.2)

/-- `Thread::Attach` (thread.cc:90): construct the `Thread`, set
`stack_limit_` to `(byte*)(-1)` and `stack_base_` to the page-rounded
address of a local, record `pthread_self()`, set `state_ = kRunnable`,
publish the thread via `pthread_setspecific` (PLOG(FATAL) on failure),
then `CHECK(vm != NULL)` and build the JNI env.  `self` is the calling
native thread, `newId` the fresh `Thread`'s identity, `localAddr` the
address of the local variable, `setOk` whether `pthread_setspecific`
succeeds, and `vmOk` whether `runtime->GetJavaVM()` is non-null. -/
def Thread.Attach (self newId localAddr : Nat) (setOk vmOk : Bool)
    (tls : List (Nat × Nat)) : Outcome (List (Nat × Nat)) Thread :=
  let th : Thread :=
    { id := newId
      state := kRunnable
      stack_base := RoundUp localAddr kPageSize
      stack_limit := maxAddr
      handle := self }
  if setOk then
    if vmOk then .ok th ((self, newId) :: tls) else .fatal
  else .fatal

/-- C6: every successful `Attach` returns a thread whose state is
`kRunnable` and has published it in the Current-Thread Lookup, so that
the lookup from the same native thread yields the attached thread; a
failed publish is fatal, never a stale or empty slot. -/
theorem attach_runnable_and_published (self newId localAddr : Nat)
    (setOk vmOk : Bool) (tls : List (Nat × Nat)) :
    (∀ th tls', Thread.Attach self newId localAddr setOk vmOk tls = Outcome.ok th tls' →
      th.state = kRunnable ∧ tlsLookup tls' self = some th.id) ∧
    (setOk = false → Thread.Attach self newId localAddr setOk vmOk tls = Outcome.fatal) := by
  constructor
  · intro th tls' h
    unfold Thread.Attach at h
    cases setOk with
    | false => simp at h
    | true =>
        cases vmOk with
        | false => simp at h
        | true =>
            simp only [if_pos] at h
            obtain ⟨hth, htls⟩ := Outcome.ok.inj h
            subst hth
            subst htls
            simp [tlsLookup]
  · intro h
    subst h
    simp [Thread.Attach]

/-- C6 witness: native thread 7 attaching thread 42 with a working TLS
slot ends Runnable and findable; with a failing `pthread_setspecific` it
is fatal. -/
theorem attach_runnable_and_published_witness :
    (Thread.state ⟨42, kRunnable, RoundUp 5000 kPageSize, maxAddr, 7⟩ = kRunnable ∧
      tlsLookup [(7, 42)] 7 = some (Thread.id ⟨42, kRunnable, RoundUp 5000 kPageSize, maxAddr, 7⟩)) ∧
    Thread.Attach 7 42 5000 false true [] = Outcome.fatal :=
  ⟨(attach_runnable_and_published 7 42 5000 true true []).1
      ⟨42, kRunnable, RoundUp 5000 kPageSize, maxAddr, 7⟩ [(7, 42)] (by decide),
   (attach_runnable_and_published 7 42 5000 false true []).2 rfl⟩

/-- Modelled from the spec: a mapped Stack Region (§2, §3) — a fixed-size
block with `GetAddress` its low address and `GetLimit` its high end
(address plus size); `MemMap` itself is not under src/. -/
structure MemMap where
  address : Nat
  size : Nat
deriving DecidableEq

/-- Low address of the mapped region. -/
def MemMap.GetAddress (m : MemMap) : Nat := m.address

/-- High end of the mapped region: its address plus its size. -/
def MemMap.GetLimit (m : MemMap) : Nat := m.address + m.size

/-- Modelled from the spec: `MemMap::Map(stack_size, PROT_READ | PROT_WRITE)`
reserves a region of the requested size, or fails (`none`); `mapAddr` is
the address the operating system chooses and `mapOk` whether the mapping
succeeds. -/
def MemMap.Map (stack_size mapAddr : Nat) (mapOk : Bool) : Option MemMap :=
  if mapOk then some ⟨mapAddr, stack_size⟩ else none

/-- Model of `scoped_ptr<MemMap>::release()`: returns the held pointer
and leaves the scoped_ptr empty — the settled contract of `release`,
and the only reading consistent with the `reset` on the same source
line not double-deleting the map.  First component: the returned
pointer; second: the scoped_ptr's contents afterwards (always
empty). -/
def scopedRelease (p : Option MemMap) : Option MemMap × Option MemMap :=
  (p, none)

/-- `Thread::Create` (thread.cc:57): map a stack of
`runtime->GetStackSize()` bytes (LOG(FATAL) if the mapping fails), then
`new_thread->stack_.reset(stack.release())` (thread.cc:68) empties the
local `scoped_ptr stack`, and thread.cc:70-71 read
`stack->GetAddress()` / `stack->GetLimit()` through that now-empty
pointer — a null dereference, modelled as the process crashing
(`fatal`) at the bounds-recording lines.  The branch below the
dereference transcribes what those lines assign when read through a
non-empty pointer (`stack_limit_ = GetAddress()`,
`stack_base_ = GetLimit()`, then a detached `pthread_create` whose
fatal CHECKs are folded into `spawnOk`); with the faithful `release`
semantics it is unreachable. -/
def Thread.Create (stack_size mapAddr : Nat) (mapOk spawnOk : Bool) :
    Outcome Unit Thread :=
  match MemMap.Map stack_size mapAddr mapOk with
  | none => .fatal
  | some region =>
      let rel := scopedRelease (some region)
      let _stackMember := rel.1
      match rel.2 with
      | none => .fatal
      | some s =>
          let th : Thread :=
            { id := 0
              state := kNew
              stack_base := s.GetLimit
              stack_limit := s.GetAddress
              handle := 0 }
          if spawnOk then .ok th () else .fatal

/-- C7: the claim says every spawned thread records stack bounds from the
mapped region with base minus limit equal to the requested size.  The
source instead empties the `scoped_ptr` at thread.cc:68 before
thread.cc:70-71 dereference it, so `Create` crashes at the
bounds-recording lines and never returns a thread at all — for every
input, and concretely for a successfully mapped 16384-byte stack at
address 8192. -/
theorem create_crashes_recording_bounds :
    (∀ stack_size mapAddr mapOk spawnOk,
      Thread.Create stack_size mapAddr mapOk spawnOk = Outcome.fatal) ∧
    Thread.Create 16384 8192 true true = Outcome.fatal := by
  constructor
  · intro stack_size mapAddr mapOk spawnOk
    unfold Thread.Create MemMap.Map scopedRelease
    cases mapOk <;> simp
  · decide

/-- `Thread::Init` (thread.cc:120): allocate the TLS slot with
`pthread_key_create` — on failure log a warning and return false — then
double-check with `pthread_getspecific` that the fresh slot is empty for
the initializing thread — if not, log a warning and return false —
otherwise return true.  `keyCreateErr` is the `pthread_key_create`
result and `slotInitial` what `pthread_getspecific` sees afterwards;
no branch aborts the process. -/
def Thread.Init (keyCreateErr : Int) (slotInitial : Option Nat) : Outcome Unit Bool :=
  if keyCreateErr ≠ 0 then .ok false ()
  else if slotInitial ≠ none then .ok false ()
  else .ok true ()

/-- C8: `Init` never aborts — it always returns a boolean to its caller —
and returns true exactly when the TLS slot was allocated and started
empty. -/
theorem init_recoverable (keyCreateErr : Int) (slotInitial : Option Nat) :
    (Thread.Init keyCreateErr slotInitial = Outcome.ok false () ∨
      Thread.Init keyCreateErr slotInitial = Outcome.ok true ()) ∧
    (Thread.Init keyCreateErr slotInitial = Outcome.ok true () ↔
      (keyCreateErr = 0 ∧ slotInitial = none)) := by
  unfold Thread.Init
  by_cases h1 : keyCreateErr = 0
  · by_cases h2 : slotInitial = none
    · subst h1 h2
      simp
    · simp [h1, h2]
  · simp [h1]

/-- C8 witness: a failed `pthread_key_create` yields false, a clean
initialization yields true. -/
theorem init_recoverable_witness :
    Thread.Init 11 none = Outcome.ok false () ∧
    Thread.Init 0 none = Outcome.ok true () :=
  ⟨((init_recoverable 11 none).1).resolve_right (by decide),
   (init_recoverable 0 none).2.mpr ⟨rfl, rfl⟩⟩

/-- The `kStateNames` table (thread.cc:178), indexed by
`state - Thread::kNew`. -/
def kStateNames : List String :=
  ["New", "Runnable", "Blocked", "Waiting", "TimedWaiting", "Native", "Terminated"]

/-- The stream formatter `operator<<(std::ostream&, const Thread::State&)`
(thread.cc:187), as the string it appends: an in-range state indexes
`kStateNames`, anything else renders the tagged fallback with the raw
integer value. -/
def stateToString (s : Int) : String :=
  if kNew ≤ s ∧ s ≤ kTerminated then kStateNames.getD (s - kNew).toNat ""
  else "State[" ++ toString s ++ "]"

/-- C9: each of the seven defined states renders to its own distinct
name, the rendering is injective on the defined range, and every
out-of-range value renders as the tagged fallback rather than indexing
the table. -/
theorem state_formatting (s t : Int) :
    (stateToString 0 = "New" ∧ stateToString 1 = "Runnable" ∧
      stateToString 2 = "Blocked" ∧ stateToString 3 = "Waiting" ∧
      stateToString 4 = "TimedWaiting" ∧ stateToString 5 = "Native" ∧
      stateToString 6 = "Terminated") ∧
    (0 ≤ s → s ≤ 6 → 0 ≤ t → t ≤ 6 → stateToString s = stateToString t → s = t) ∧
    ((s < 0 ∨ 6 < s) → stateToString s = "State[" ++ toString s ++ "]") := by
  refine ⟨⟨by decide, by decide, by decide, by decide, by decide, by decide, by decide⟩, ?_, ?_⟩
  · intro h0 h6 ht0 ht6 heq
    interval_cases s <;> interval_cases t <;> revert heq <;> decide
  · intro h
    have hn : ¬ (kNew ≤ s ∧ s ≤ kTerminated) := by
      simp only [kNew, kTerminated]
      omega
    simp [stateToString, hn]

/-- C9 witness: the out-of-range value 7 renders as the fallback, and two
in-range states rendering equally are equal, applied at 4 and 4. -/
theorem state_formatting_witness :
    stateToString 7 = "State[" ++ toString (7 : Int) ++ "]" ∧ (4 : Int) = 4 :=
  ⟨(state_formatting 7 0).2.2 (Or.inr (by decide)),
   (state_formatting 4 4).2.1 (by decide) (by decide) (by decide) (by decide) rfl⟩

/-- Model of the C library `vsnprintf(buf, bufSize, fmt, args)`: the
format step is abstracted as the fully rendered character sequence, of
which at most `bufSize - 1` characters fit in the buffer before the
terminating NUL; the buffer content is that NUL-terminated truncation. -/
def vsnprintf (bufSize : Nat) (rendered : List Char) : List Char :=
  rendered.take (bufSize - 1)

/-- The one field of a `Thread` that the exception-attachment path
writes: the pending exception, as the exception class name and the
message characters it was built from. -/
structure ThreadExc where
  exception : Option (String × List Char)
deriving DecidableEq

/-- `ThrowNewException` (thread.cc:138) at the boundary this core owns
(spec §4.5): the class resolution, allocation and (unimplemented)
constructor call are external collaborators; the core's responsibility
is attaching the exception built from `msg` as the thread's pending
exception via `thread->SetException(exception)`. -/
def ThrowNewException (th : ThreadExc) (exception_class_name : String)
    (msg : List Char) : ThreadExc :=
  { th with exception := some (exception_class_name, msg) }

/-- `ThrowNewExceptionV` (thread.cc:165): renders the format string and
arguments with `vsnprintf` into the 512-byte stack buffer `char msg[512]`
and delegates to `ThrowNewException` with the buffer contents. -/
def ThrowNewExceptionV (th : ThreadExc) (exception_class_name : String)
    (rendered : List Char) : ThreadExc :=
  ThrowNewException th exception_class_name (vsnprintf 512 rendered)

/-- C10: the message `ThrowNewExceptionV` delegates onward is the
rendering truncated to the 512-byte buffer: at most 511 characters,
equal to the full rendering whenever that fits, and the initial 511
characters of a longer one. -/
theorem throwV_truncates (th : ThreadExc) (exception_class_name : String)
    (rendered : List Char) :
    ∃ msg, (ThrowNewExceptionV th exception_class_name rendered).exception =
        some (exception_class_name, msg) ∧
      msg.length ≤ 511 ∧ (rendered.length ≤ 511 → msg = rendered) ∧
      msg = rendered.take 511 := by
  refine ⟨rendered.take 511, ?_, ?_, ?_, rfl⟩
  · simp [ThrowNewExceptionV, ThrowNewException, vsnprintf]
  · simp [List.length_take]
  · intro h
    exact List.take_of_length_le h

/-- C10 witness: a two-character rendering is delegated whole. -/
theorem throwV_truncates_witness :
    ∃ msg, (ThrowNewExceptionV ⟨none⟩ "Ljava/lang/Error;" ['h', 'i']).exception =
        some ("Ljava/lang/Error;", msg) ∧
      msg.length ≤ 511 ∧ (['h', 'i'].length ≤ 511 → msg = ['h', 'i']) ∧
      msg = ['h', 'i'].take 511 :=
  throwV_truncates ⟨none⟩ "Ljava/lang/Error;" ['h', 'i']
